import Mathlib

/-!
Formal model of the PrintVault3D thumbnail pipeline
(`src/PythonScripts/stl_thumbnail.py` and `src/PythonScripts/stl_thumbnail_batch.py`).

Floating-point coordinates are modelled by exact rationals; Python dicts for
job results are modelled by structures with `Option` fields (a missing or
`None`-valued key is `none`).  The two scripts contain line-for-line identical
copies of `load_3mf_mesh` and of the per-job pipeline
(`generate_thumbnail` / `generate_single_thumbnail`); the shared logic is
modelled once.  External capabilities (the numpy-stl STL parser, the zip
container reader, the matplotlib figure/savefig machinery) are supplied by an
explicit environment so that their failures can be studied at the job-runner
boundary.
-/

set_option autoImplicit false

namespace PV3D

/-- A 3D point with exact rational coordinates, modelling a parsed float triple. -/
structure Vec3 where
  x : ℚ
  y : ℚ
  z : ℚ
  deriving DecidableEq

/-- One triangle: three ordered vertices, as one row of `mesh.vectors`. -/
abbrev Tri := Vec3 × Vec3 × Vec3

/-- The uniform in-memory mesh: the `vectors` array of a numpy-stl `Mesh`
(one entry per triangle, each holding its three vertices). -/
structure Mesh where
  vectors : List Tri
  deriving DecidableEq

/-- All vertices of the mesh in iteration order (rows flattened). -/
def allVerts (m : Mesh) : List Vec3 :=
  m.vectors.foldr (fun t acc => t.1 :: t.2.1 :: t.2.2 :: acc) []

/-- Componentwise minimum of two points. -/
def vmin (a b : Vec3) : Vec3 := ⟨min a.x b.x, min a.y b.y, min a.z b.z⟩

/-- Componentwise maximum of two points. -/
def vmax (a b : Vec3) : Vec3 := ⟨max a.x b.x, max a.y b.y, max a.z b.z⟩

/-- `stl_mesh.min_`: componentwise minimum over every vertex of every
triangle (numpy reduction over the first two axes of `vectors`).  For the
empty mesh numpy raises instead; the job runner models that branch
explicitly, so the value returned here for `[]` is never relied upon. -/
def meshMin (m : Mesh) : Vec3 :=
  match allVerts m with
  | [] => ⟨0, 0, 0⟩
  | v :: vs => vs.foldl vmin v

/-- `stl_mesh.max_`, dually to `meshMin`. -/
def meshMax (m : Mesh) : Vec3 :=
  match allVerts m with
  | [] => ⟨0, 0, 0⟩
  | v :: vs => vs.foldl vmax v

/-- `dimensions = max_coords - min_coords`. -/
def meshDims (m : Mesh) : Vec3 :=
  ⟨(meshMax m).x - (meshMin m).x, (meshMax m).y - (meshMin m).y,
    (meshMax m).z - (meshMin m).z⟩

/-- `center = (min_coords + max_coords) / 2`. -/
def centerOf (m : Mesh) : Vec3 :=
  ⟨((meshMin m).x + (meshMax m).x) / 2, ((meshMin m).y + (meshMax m).y) / 2,
    ((meshMin m).z + (meshMax m).z) / 2⟩

/-- `max_range = np.max(dimensions) / 2`: half the largest axis extent. -/
def maxRange (m : Mesh) : ℚ :=
  max (meshDims m).x (max (meshDims m).y (meshDims m).z) / 2

/-- Apply a pointwise transform to the three corners of a triangle. -/
def triMap (g : Vec3 → Vec3) (t : Tri) : Tri := (g t.1, g t.2.1, g t.2.2)

/-- `vectors - center`. -/
def vsub (v c : Vec3) : Vec3 := ⟨v.x - c.x, v.y - c.y, v.z - c.z⟩

/-- `(vectors - center) / max_range`. -/
def vsubdiv (v c : Vec3) (r : ℚ) : Vec3 :=
  ⟨(v.x - c.x) / r, (v.y - c.y) / r, (v.z - c.z) / r⟩

/-- The normalizer embedded in the job runner (stl_thumbnail.py lines
234-243 / stl_thumbnail_batch.py lines 203-212): subtract the bounding-box
center from every vertex, then, when `max_range > 0`, divide every
coordinate by `max_range`; otherwise keep only the centered vertices. -/
def normalize (m : Mesh) : Mesh :=
  let c := centerOf m
  let r := maxRange m
  if 0 < r then ⟨m.vectors.map (triMap (fun v => vsubdiv v c r))⟩
  else ⟨m.vectors.map (triMap (fun v => vsub v c))⟩

/-! ### Python string and number primitives used by the loaders -/

/-- Strip an optional leading sign, returning whether it was a minus. -/
def takeSign : List Char → Bool × List Char
  | '-' :: r => (true, r)
  | '+' :: r => (false, r)
  | r => (false, r)

/-- Value of a digit string, most significant first. -/
def digitsVal (ds : List Char) : Nat :=
  ds.foldl (fun a c => a * 10 + (c.toNat - 48)) 0

/-- Model of Python `int(s)` on decimal literals: an optional sign followed
by at least one digit; anything else raises `ValueError` (here: `none`). -/
def pyInt (s : String) : Option Int :=
  let (neg, ds) := takeSign s.toList
  if ds.isEmpty then none
  else if ds.all Char.isDigit then
    some (if neg then -(digitsVal ds : Int) else (digitsVal ds : Int))
  else none

/-- Model of Python `float(s)` on decimal literals
(`[sign] digits [. digits] [e [sign] digits]` with at least one mantissa
digit); anything else raises `ValueError` (here: `none`). -/
def pyFloat (s : String) : Option ℚ :=
  let (neg, r0) := takeSign s.toList
  let ip := r0.takeWhile Char.isDigit
  let r1 := r0.dropWhile Char.isDigit
  let (fp, r2) :=
    match r1 with
    | '.' :: r => (r.takeWhile Char.isDigit, r.dropWhile Char.isDigit)
    | _ => ([], r1)
  if ip.isEmpty && fp.isEmpty then none
  else
    let mant : ℚ :=
      match fp with
      | [] => ((if neg then -(digitsVal ip : Int) else (digitsVal ip : Int) : Int) : ℚ)
      | _ =>
        let a : ℚ := (digitsVal ip : ℚ) + (digitsVal fp : ℚ) / (10 : ℚ) ^ fp.length
        if neg then -a else a
    match r2 with
    | [] => some mant
    | e :: r3 =>
      if e = 'e' ∨ e = 'E' then
        let (eneg, r4) := takeSign r3
        let ed := r4.takeWhile Char.isDigit
        let r5 := r4.dropWhile Char.isDigit
        if ed.isEmpty || !r5.isEmpty then none
        else
          some (mant * (10 : ℚ) ^ (if eneg then -(digitsVal ed : Int) else (digitsVal ed : Int)))
      else none

/-- ASCII lowering of one character, modelling Python `str.lower` on the
ASCII file extensions this program compares against. -/
def lowerChar (c : Char) : Char :=
  if 'A' ≤ c ∧ c ≤ 'Z' then Char.ofNat (c.toNat + 32) else c

/-- Model of Python `str.lower()`. -/
def strLower (s : String) : String := String.mk (s.toList.map lowerChar)

/-- Model of Python `str.endswith(t)`. -/
def strEndsWith (s t : String) : Bool :=
  s.toList.reverse.take t.toList.length == t.toList.reverse

/-- Split a character list at every occurrence of `sep`. -/
def splitChar (sep : Char) : List Char → List (List Char)
  | [] => [[]]
  | c :: rest =>
    let r := splitChar sep rest
    if c = sep then [] :: r
    else
      match r with
      | [] => [[c]]
      | h :: t => (c :: h) :: t

/-- Final path component: `pathlib.PurePath(p).name` (POSIX separators). -/
def pathName (p : String) : String :=
  String.mk (((splitChar '/' p.toList).filter (fun s => !s.isEmpty)).getLast?.getD [])

/-- `pathlib.PurePath(p).suffix`: the final extension including the dot;
empty when the name has no dot, starts with its only dot, or ends in a dot
(the CPython rule `0 < name.rfind(".") < len(name) - 1`). -/
def pathSuffix (p : String) : String :=
  let n := (pathName p).toList
  let revAfter := n.reverse.takeWhile (fun c => c != '.')
  if revAfter.length = n.length then ""
  else
    let i := n.length - 1 - revAfter.length
    if 0 < i ∧ i < n.length - 1 then String.mk (n.drop i) else ""

/-! ### XML element model (xml.etree.ElementTree) -/

/-- A resolved XML tag: ElementTree writes a namespaced tag as
the string `\x7buri\x7dlocalname`; here the two parts are kept separate,
with `ns = none` for a tag with no namespace. -/
structure XTag where
  ns : Option String
  name : String
  deriving DecidableEq

/-- An XML element: tag, attributes in document order, direct children. -/
structure XElem where
  tag : XTag
  attrs : List (String × String)
  children : List XElem

/-- `elem.get(k)`: first attribute named `k`, if any. -/
def getAttr (e : XElem) (k : String) : Option String :=
  (e.attrs.find? (fun p => p.1 == k)).map (fun p => p.2)

/-- `elem.get(k, d)`: attribute lookup with a default. -/
def getAttrD (e : XElem) (k d : String) : String := (getAttr e k).getD d

/-- `parent.find(tag)` under one fully qualified tag: first direct child
carrying exactly that tag. -/
def findByTag (parent : XElem) (t : XTag) : Option XElem :=
  parent.children.find? (fun c => decide (c.tag = t))

/-- `parent.findall(tag)` under one fully qualified tag. -/
def findAllByTag (parent : XElem) (t : XTag) : List XElem :=
  parent.children.filter (fun c => decide (c.tag = t))

/-- The Microsoft 3MF core namespace tried by the loader. -/
def msNS : String := "http://schemas.microsoft.com/3dmanufacturing/core/2015/02"

/-- The OpenXML 3MF core namespace tried by the loader. -/
def oxNS : String := "http://schemas.openxmlformats.org/3dmanufacturing/core/2015/02"

/-- `find_element` from `load_3mf_mesh`: try each candidate namespace in
order and return the first hit.  A `some ""` candidate is falsy in Python
(`if ns:`), so it searches without a namespace, exactly like `none`. -/
def find_element (parent : XElem) (tag : String) : List (Option String) → Option XElem
  | [] => none
  | ns :: rest =>
    let attempt :=
      match ns with
      | some s => if s.isEmpty then findByTag parent ⟨none, tag⟩ else findByTag parent ⟨some s, tag⟩
      | none => findByTag parent ⟨none, tag⟩
    match attempt with
    | some e => some e
    | none => find_element parent tag rest

/-- `find_all_elements` from `load_3mf_mesh`: first candidate namespace
under which `findall` returns a non-empty list; `[]` when none does. -/
def find_all_elements (parent : XElem) (tag : String) : List (Option String) → List XElem
  | [] => []
  | ns :: rest =>
    let elems :=
      match ns with
      | some s => if s.isEmpty then findAllByTag parent ⟨none, tag⟩ else findAllByTag parent ⟨some s, tag⟩
      | none => findAllByTag parent ⟨none, tag⟩
    if elems.isEmpty then find_all_elements parent tag rest else elems

/-- The candidate namespace list built at the top of `load_3mf_mesh`:
the namespace declared on the root element (when its tag is namespaced),
then the two published 3MF core namespaces, then no namespace. -/
def nsCandidates (root : XElem) : List (Option String) :=
  [root.tag.ns, some msNS, some oxNS, none]

/-! ### 3MF model-document parsing (`load_3mf_mesh`, XML part) -/

/-- `float(v.get(k, 0))`: a missing coordinate attribute defaults to `0`,
an unparsable one raises `ValueError` (propagated as an error string). -/
def floatAttr : Option String → Except String ℚ
  | none => .ok 0
  | some s =>
    match pyFloat s with
    | some q => .ok q
    | none => .error ("could not convert string to float: " ++ s)

/-- `int(t.get(k))`: a missing index attribute is `int(None)`, a
`TypeError`; an unparsable one raises `ValueError`. -/
def intAttr : Option String → Except String Int
  | none => .error "int() argument must be a string, a bytes-like object or a real number, not NoneType"
  | some s =>
    match pyInt s with
    | some i => .ok i
    | none => .error ("invalid literal for int() with base 10: " ++ s)

/-- Parse one `vertex` element: `x`, `y`, `z` attributes as floats. -/
def parseVertexElem (v : XElem) : Except String Vec3 := do
  let x ← floatAttr (getAttr v "x")
  let y ← floatAttr (getAttr v "y")
  let z ← floatAttr (getAttr v "z")
  pure ⟨x, y, z⟩

/-- Parse one `triangle` element: `v1`, `v2`, `v3` attributes as ints. -/
def parseTriangleElem (t : XElem) : Except String (Int × Int × Int) := do
  let a ← intAttr (getAttr t "v1")
  let b ← intAttr (getAttr t "v2")
  let c ← intAttr (getAttr t "v3")
  pure (a, b, c)

/-- `np_vertices[i, :]` for a parsed (possibly negative) index: numpy
accepts any `i` with `-n ≤ i < n`, resolving a negative `i` to row
`n + i`, and raises `IndexError` otherwise.  The loader performs no bounds
check of its own; this is the only check that happens. -/
def derefIdx (verts : List Vec3) (i : Int) : Except String Vec3 :=
  if h1 : 0 ≤ i ∧ i.toNat < verts.length then .ok (verts.get ⟨i.toNat, h1.2⟩)
  else if h2 : i < 0 ∧ 0 ≤ i + verts.length then
    .ok (verts.get ⟨(i + verts.length).toNat, by omega⟩)
  else
    .error ("index " ++ toString i ++ " is out of bounds for axis 0 with size "
      ++ toString verts.length)

/-- Materialize one face by dereferencing its three indices in order. -/
def derefTri (verts : List Vec3) (f : Int × Int × Int) : Except String Tri := do
  let a ← derefIdx verts f.1
  let b ← derefIdx verts f.2.1
  let c ← derefIdx verts f.2.2
  pure (a, b, c)

/-- The materialization loop of `load_3mf_mesh`
(`model_mesh.vectors[i][j] = np_vertices[f[j], :]`): build the mesh rows in
declaration order, stopping at the first failing index dereference. -/
def materialize (verts : List Vec3) (faces : List (Int × Int × Int)) :
    Except String Mesh := do
  let tris ← faces.mapM (derefTri verts)
  pure ⟨tris⟩

/-- The object tie-break of `load_3mf_mesh` (stl_thumbnail.py lines
103-118): first pass keeps the first object whose `type` attribute
defaults to or equals `"model"` and which has a `mesh` child under the
candidate namespaces; the fallback pass keeps the first object with a
`mesh` child regardless of type. -/
def selectObjectNode (objects : List XElem) (nss : List (Option String)) : Option XElem :=
  match objects.find? (fun o =>
      (getAttrD o "type" "model" == "model") && (find_element o "mesh" nss).isSome) with
  | some o => some o
  | none => objects.find? (fun o => (find_element o "mesh" nss).isSome)

/-- Modelled from the spec (§4.3 step 6), for comparison against the code:
prefer the first object whose `type` attribute is absent or equals
`"model"` and which directly contains a `mesh` child; if none qualifies,
fall back to the first object (in document order) with a `mesh` child. -/
def selectObjectSpec (objects : List XElem) (nss : List (Option String)) : Option XElem :=
  match objects.find? (fun o =>
      (decide (getAttr o "type" = none) || decide (getAttr o "type" = some "model"))
        && (find_element o "mesh" nss).isSome) with
  | some o => some o
  | none => objects.find? (fun o => (find_element o "mesh" nss).isSome)

/-- The vertex/triangle stage of `load_3mf_mesh`: convert the collected
`vertex` elements (emptiness checked after conversion), then the collected
`triangle` elements, then materialize.  Element collection itself is pure,
so it is done by the caller. -/
def parse3mfMeshData (vlist tlist : List XElem) : Except String Mesh := do
  let vertices ← vlist.mapM parseVertexElem
  if vertices.isEmpty then .error "No vertices found in 3MF mesh"
  else do
    let faces ← tlist.mapM parseTriangleElem
    if faces.isEmpty then .error "No triangles found in 3MF mesh"
    else materialize vertices faces

/-- The XML part of `load_3mf_mesh` (both scripts), from the parsed root
element to a mesh: namespace candidates, `resources`, `object` list,
object tie-break, `mesh`, `vertices`/`vertex`, `triangles`/`triangle`,
materialization.  Error strings are the `Exception` messages raised by the
source; the caller wraps them. -/
def parse3mfModel (root : XElem) : Except String Mesh :=
  let possible := nsCandidates root
  match find_element root "resources" possible with
  | none => .error "No resources found in 3MF file"
  | some resources =>
    let objects := find_all_elements resources "object" possible
    if objects.isEmpty then .error "No object found in 3MF file"
    else
      match selectObjectNode objects possible with
      | none => .error "No object with mesh found in 3MF file"
      | some object_node =>
        match find_element object_node "mesh" possible with
        | none => .error "No mesh found in 3MF object"
        | some mesh_node =>
          let vlist :=
            match find_element mesh_node "vertices" possible with
            | none => []
            | some vn => find_all_elements vn "vertex" possible
          let tlist :=
            match find_element mesh_node "triangles" possible with
            | none => []
            | some tn => find_all_elements tn "triangle" possible
          parse3mfMeshData vlist tlist

/-! ### Container level and the job environment -/

/-- What opening the input path as a zip archive yields: a failed open
(`FileNotFoundError`, permissions, ...), `zipfile.BadZipFile`, or the entry
list, each entry being its name and the result of `ET.fromstring` on its
bytes (an XML parse error or the root element). -/
inductive ZipData where
  | openFail (msg : String)
  | notZip
  | entries (es : List (String × Except String XElem))

/-- The collaborators of one job-runner invocation, keyed by paths:
`stlParse` is the numpy-stl `mesh.Mesh.from_file` capability, `zipData`
the zip container reader, and `render` the whole
figure/draw/makedirs/savefig capability applied to the normalized mesh
(its failures are `OSError`s and matplotlib errors). -/
structure Env where
  stlParse : String → Except String Mesh
  zipData : String → ZipData
  render : String → Nat → Mesh → Except String Unit

/-- `load_3mf_mesh` (stl_thumbnail.py lines 30-170 and its identical copy
in the batch script): open the archive, pick the first `*.model` entry,
parse it as XML, and run the model-document parser.  `BadZipFile` is
re-raised as `Invalid 3MF file (not a valid ZIP)` unwrapped; every other
failure is wrapped with the `Failed to parse 3MF file: ` context. -/
def load_3mf_mesh (env : Env) (file_path : String) : Except String Mesh :=
  match env.zipData file_path with
  | .notZip => .error "Invalid 3MF file (not a valid ZIP)"
  | .openFail msg => .error ("Failed to parse 3MF file: " ++ msg)
  | .entries es =>
    match es.filter (fun p => strEndsWith p.1 ".model") with
    | [] => .error ("Failed to parse 3MF file: " ++ "No .model file found in 3MF archive")
    | (_, content) :: _ =>
      match content with
      | .error xmlErr => .error ("Failed to parse 3MF file: " ++ xmlErr)
      | .ok root =>
        match parse3mfModel root with
        | .error e => .error ("Failed to parse 3MF file: " ++ e)
        | .ok m => .ok m

/-! ### Job runner (`generate_thumbnail` / `generate_single_thumbnail`) -/

/-- The `metadata` sub-dict: per-axis extents of the original mesh and the
triangle count (`len(stl_mesh.vectors)`).  The single-file script also
stores a `volume` entry; it plays no role in any claim and is omitted. -/
structure Metadata where
  dims : Vec3
  triangles : Nat
  deriving DecidableEq

/-- The per-job result dict.  `error = none` models both a missing key and
an explicit `None`; `metadata = none` models a missing or empty dict. -/
structure JobResult where
  file_path : String
  output_path : String
  success : Bool
  error : Option String
  metadata : Option Metadata
  deriving DecidableEq

/-- The extension dispatch of the job runner (stl_thumbnail.py lines
196-205): `.stl` goes to the numpy-stl parser, `.3mf` to `load_3mf_mesh`,
anything else raises the unsupported-file-type `Exception`. -/
def selectLoad (env : Env) (file_path : String) : Except String Mesh :=
  let ext := strLower (pathSuffix file_path)
  if ext = ".stl" then env.stlParse file_path
  else if ext = ".3mf" then load_3mf_mesh env file_path
  else .error ("Unsupported file type: " ++ ext ++ ". Only .stl and .3mf are supported.")

/-- `metadata` as assembled right after loading. -/
def mkMetadata (m : Mesh) : Metadata := ⟨meshDims m, m.vectors.length⟩

/-- `generate_thumbnail` (stl_thumbnail.py lines 175-291) and its twin
`generate_single_thumbnail` (stl_thumbnail_batch.py lines 158-256): load
by extension, compute metadata, normalize, render, and convert every
collaborator failure into a `success = false` result inside the single
`try`/`except` boundary.  Totality of this function is the model of the
runner never raising past its boundary.  The `vectors.isEmpty` branch
models numpy raising `ValueError` when `stl_mesh.min_` reduces an empty
array (reachable through a zero-facet STL file), which happens before the
metadata assignment; every later failure (the render capability) happens
after `result["metadata"]` has been filled in, so the failed result keeps
the metadata, exactly as in the source. -/
def generate_thumbnail (env : Env) (file_path output_path : String) (size : Nat) :
    JobResult :=
  match selectLoad env file_path with
  | .error e =>
    { file_path := file_path, output_path := output_path, success := false,
      error := some e, metadata := none }
  | .ok m =>
    if m.vectors.isEmpty then
      { file_path := file_path, output_path := output_path, success := false,
        error := some "zero-size array to reduction operation minimum which has no identity",
        metadata := none }
    else
      let md := mkMetadata m
      match env.render output_path size (normalize m) with
      | .error e =>
        { file_path := file_path, output_path := output_path, success := false,
          error := some e, metadata := some md }
      | .ok _ =>
        { file_path := file_path, output_path := output_path, success := true,
          error := none, metadata := some md }

/-- The batch worker entry point is the same pipeline (the two copies
differ only in stderr logging and the extra `volume` metadata entry). -/
def generate_single_thumbnail (env : Env) (file_path output_path : String)
    (size : Nat) : JobResult :=
  generate_thumbnail env file_path output_path size

/-! ### Batch scheduler (`process_batch`) -/

/-- One entry of the `jobs` list. -/
structure Job where
  input : String
  output : String
  size : Nat
  deriving DecidableEq

/-- The aggregate summary dict built at the end of `process_batch`. -/
structure BatchSummary where
  success : Bool
  total : Nat
  succeeded : Nat
  failed : Nat
  results : List JobResult
  deriving DecidableEq

/-- A record printed to stdout in streaming mode: a per-job result line or
the final summary line. -/
inductive StreamRec where
  | result (r : JobResult)
  | summary (s : BatchSummary)
  deriving DecidableEq

/-- The body of the `as_completed` loop for one finished future: either
the worker returned a `JobResult`, or `future.result()` itself raised (a
worker-process fault), which is converted to a failed result carrying the
job's paths. -/
def futureResult (j : Job) : Except String JobResult → JobResult
  | .ok r => r
  | .error e =>
    { file_path := j.input, output_path := j.output, success := false,
      error := some e, metadata := none }

/-- The `as_completed` collection loop of `process_batch`: fold over the
finished futures in completion order, appending one result per future,
counting successes, and (in streaming mode) emitting each result line as
it completes.  Returns (results, success_count, emitted lines). -/
def collectResults : List (Job × Except String JobResult) → Bool →
    List JobResult × Nat × List StreamRec
  | [], _ => ([], 0, [])
  | (j, out) :: rest, stream =>
    let r := futureResult j out
    let col := collectResults rest stream
    (r :: col.1, (if r.success then 1 else 0) + col.2.1,
      (if stream then [StreamRec.result r] else []) ++ col.2.2)

/-- `process_batch` (stl_thumbnail_batch.py lines 260-323).  Concurrency
is abstracted as data: `completed` lists the submitted jobs in completion
order (a permutation of `jobs`) together with each future's outcome;
`maxWorkers` bounds only the parallelism, not the collected values, so it
does not enter the result.  Returns the summary and the stdout records
(empty when not streaming; one line per result plus the summary line when
streaming). -/
def process_batch (jobs : List Job) (completed : List (Job × Except String JobResult))
    (maxWorkers : Nat) (stream : Bool) : BatchSummary × List StreamRec :=
  let _ := maxWorkers
  let col := collectResults completed stream
  let summary : BatchSummary :=
    { success := true, total := jobs.length, succeeded := col.2.1,
      failed := jobs.length - col.2.1, results := col.1 }
  (summary, col.2.2 ++ (if stream then [StreamRec.summary summary] else []))

/-! ### Concrete scenario inputs -/

/-- Build an element with the given namespace on its tag. -/
def el (ns : Option String) (name : String) (attrs : List (String × String))
    (children : List XElem) : XElem :=
  ⟨⟨ns, name⟩, attrs, children⟩

/-- A `vertex` element from raw attribute strings. -/
def mkVertex (ns : Option String) (v : String × String × String) : XElem :=
  el ns "vertex" [("x", v.1), ("y", v.2.1), ("z", v.2.2)] []

/-- A `triangle` element from raw attribute strings. -/
def mkTriangle (ns : Option String) (t : String × String × String) : XElem :=
  el ns "triangle" [("v1", t.1), ("v2", t.2.1), ("v3", t.2.2)] []

/-- A minimal well-formed model document, every tag in the namespace `ns`,
holding the given raw vertex and triangle attribute strings. -/
def mkModelDoc (ns : Option String) (vs ts : List (String × String × String)) : XElem :=
  el ns "model" []
    [el ns "resources" []
      [el ns "object" []
        [el ns "mesh" []
          [el ns "vertices" [] (vs.map (mkVertex ns)),
           el ns "triangles" [] (ts.map (mkTriangle ns))]]]]

/-- Did the computation succeed (no exception)? -/
def exOk {α : Type} : Except String α → Bool
  | .ok _ => true
  | .error _ => false

/-- The index set numpy accepts for an axis of size `n`: `-n ≤ i < n`. -/
def numpyValid (n : Nat) (f : Int × Int × Int) : Prop :=
  (-(n : Int) ≤ f.1 ∧ f.1 < n) ∧ (-(n : Int) ≤ f.2.1 ∧ f.2.1 < n)
    ∧ (-(n : Int) ≤ f.2.2 ∧ f.2.2 < n)

instance (n : Nat) (f : Int × Int × Int) : Decidable (numpyValid n f) := by
  unfold numpyValid; infer_instance

/-- A `mesh` element whose only vertex is `(5,5,5)`, used by the
tie-break scenarios. -/
def meshChildSupport : XElem :=
  el none "mesh" []
    [el none "vertices" [] [mkVertex none ("5", "5", "5")],
     el none "triangles" [] [mkTriangle none ("0", "0", "0")]]

/-- A `mesh` element whose only vertex is `(1,2,3)`. -/
def meshChildModel : XElem :=
  el none "mesh" []
    [el none "vertices" [] [mkVertex none ("1", "2", "3")],
     el none "triangles" [] [mkTriangle none ("0", "0", "0")]]

/-- Tie-break scenario: a `type="support"` mesh-bearing object listed
before a `type="model"` mesh-bearing object. -/
def tieDocA : XElem :=
  el none "model" []
    [el none "resources" []
      [el none "object" [("type", "support")] [meshChildSupport],
       el none "object" [("type", "model")] [meshChildModel]]]

/-- Tie-break scenario: only a `type="support"` mesh-bearing object. -/
def tieDocB : XElem :=
  el none "model" []
    [el none "resources" [] [el none "object" [("type", "support")] [meshChildSupport]]]

/-- A document whose objects carry no `mesh` child at all. -/
def noMeshObjDoc : XElem :=
  el none "model" []
    [el none "resources" []
      [el none "object" [] [], el none "object" [("type", "support")] []]]

/-- Mesh parsed from the `type="model"` object of `tieDocA`. -/
def tieMeshModel : Mesh := ⟨[(⟨1, 2, 3⟩, ⟨1, 2, 3⟩, ⟨1, 2, 3⟩)]⟩

/-- Mesh parsed from the `type="support"` object. -/
def tieMeshSupport : Mesh := ⟨[(⟨5, 5, 5⟩, ⟨5, 5, 5⟩, ⟨5, 5, 5⟩)]⟩

/-- Eight vertices and one triangle referencing vertex index 999. -/
def oobDoc : XElem :=
  mkModelDoc none (List.replicate 8 ("0", "0", "0")) [("0", "1", "999")]

/-- Two vertices and one triangle whose `v3` is the negative index `-1`. -/
def negIdxDoc : XElem :=
  mkModelDoc none [("0", "0", "0"), ("1", "1", "1")] [("0", "1", "-1")]

/-- The mesh the loader actually builds from `negIdxDoc`: numpy resolves
the index `-1` to the last vertex. -/
def negIdxMesh : Mesh := ⟨[(⟨0, 0, 0⟩, ⟨1, 1, 1⟩, ⟨1, 1, 1⟩)]⟩

/-- One vertex and an empty triangle list. -/
def noTriDoc : XElem := mkModelDoc none [("0", "0", "0")] []

/-- A small valid mesh used by witnesses: one right triangle of extent 2. -/
def demoMesh : Mesh := ⟨[(⟨0, 0, 0⟩, ⟨2, 0, 0⟩, ⟨0, 2, 0⟩)]⟩

/-- Environment whose `.3mf` reads hit a file that is not a zip archive
and whose other collaborators never fail. -/
def envBadZip : Env :=
  { stlParse := fun _ => .error "unused",
    zipData := fun _ => .notZip,
    render := fun _ _ _ => .ok () }

/-- Environment where the STL parser succeeds and rendering succeeds. -/
def envStlOk : Env :=
  { stlParse := fun _ => .ok demoMesh,
    zipData := fun _ => .notZip,
    render := fun _ _ _ => .ok () }

/-- Environment where the STL parser succeeds but the render/write stage
fails, as `os.makedirs(os.path.dirname(output_path))` does for an output
path with no directory part. -/
def envRenderFail : Env :=
  { stlParse := fun _ => .ok demoMesh,
    zipData := fun _ => .notZip,
    render := fun _ _ _ => .error "[Errno 2] No such file or directory: " }

/-- Jobs used by the batch witnesses. -/
def demoJobs : List Job :=
  [⟨"a.stl", "out/a.png", 256⟩, ⟨"b.3mf", "out/b.png", 128⟩]

/-- A completion-order list for `demoJobs`: the second job finishes first
and its worker faulted; the first returns a successful result. -/
def demoCompleted : List (Job × Except String JobResult) :=
  [(⟨"b.3mf", "out/b.png", 128⟩, .error "A process in the process pool was terminated abruptly"),
   (⟨"a.stl", "out/a.png", 256⟩,
     .ok (generate_single_thumbnail envStlOk "a.stl" "out/a.png" 256))]

theorem allVerts_map (vs : List Tri) (g : Vec3 → Vec3) :
    allVerts ⟨vs.map (triMap g)⟩ = (allVerts { vectors := vs }).map g := by
  induction vs with
  | nil => rfl
  | cons t ts ih =>
    simp only [allVerts, List.map_cons, List.foldr_cons] at ih ⊢
    simp [triMap, ih]

/-- Componentwise order on points. -/
def vle (a b : Vec3) : Prop := a.x ≤ b.x ∧ a.y ≤ b.y ∧ a.z ≤ b.z

theorem vmin_le_left (a b : Vec3) : vle (vmin a b) a :=
  ⟨min_le_left _ _, min_le_left _ _, min_le_left _ _⟩

theorem vmin_le_right (a b : Vec3) : vle (vmin a b) b :=
  ⟨min_le_right _ _, min_le_right _ _, min_le_right _ _⟩

theorem vmax_le_left (a b : Vec3) : vle a (vmax a b) :=
  ⟨le_max_left _ _, le_max_left _ _, le_max_left _ _⟩

theorem vmax_le_right (a b : Vec3) : vle b (vmax a b) :=
  ⟨le_max_right _ _, le_max_right _ _, le_max_right _ _⟩

theorem vle_trans {a b c : Vec3} (h1 : vle a b) (h2 : vle b c) : vle a c :=
  ⟨le_trans h1.1 h2.1, le_trans h1.2.1 h2.2.1, le_trans h1.2.2 h2.2.2⟩

theorem foldl_vmin_le_init (vs : List Vec3) (a : Vec3) : vle (vs.foldl vmin a) a := by
  induction vs generalizing a with
  | nil => exact ⟨le_refl _, le_refl _, le_refl _⟩
  | cons v vs ih =>
    exact vle_trans (ih (vmin a v)) (vmin_le_left a v)

theorem foldl_vmin_le_mem (vs : List Vec3) (a : Vec3) :
    ∀ v ∈ vs, vle (vs.foldl vmin a) v := by
  induction vs generalizing a with
  | nil => intro v hv; cases hv
  | cons w vs ih =>
    intro v hv
    rcases List.mem_cons.mp hv with h | h
    · subst h
      exact vle_trans (foldl_vmin_le_init vs (vmin a v)) (vmin_le_right a v)
    · exact ih (vmin a w) v h

theorem foldl_vmax_ge_init (vs : List Vec3) (a : Vec3) : vle a (vs.foldl vmax a) := by
  induction vs generalizing a with
  | nil => exact ⟨le_refl _, le_refl _, le_refl _⟩
  | cons v vs ih =>
    exact vle_trans (vmax_le_left a v) (ih (vmax a v))

theorem foldl_vmax_ge_mem (vs : List Vec3) (a : Vec3) :
    ∀ v ∈ vs, vle v (vs.foldl vmax a) := by
  induction vs generalizing a with
  | nil => intro v hv; cases hv
  | cons w vs ih =>
    intro v hv
    rcases List.mem_cons.mp hv with h | h
    · subst h
      exact vle_trans (vmax_le_right a v) (foldl_vmax_ge_init vs (vmax a v))
    · exact ih (vmax a w) v h

theorem meshMin_le {m : Mesh} {v : Vec3} (hv : v ∈ allVerts m) :
    vle (meshMin m) v := by
  unfold meshMin
  rcases h : allVerts m with _ | ⟨w, ws⟩
  · rw [h] at hv; cases hv
  · rw [h] at hv
    rcases List.mem_cons.mp hv with h1 | h1
    · subst h1; exact foldl_vmin_le_init ws v
    · exact foldl_vmin_le_mem ws w v h1

theorem le_meshMax {m : Mesh} {v : Vec3} (hv : v ∈ allVerts m) :
    vle v (meshMax m) := by
  unfold meshMax
  rcases h : allVerts m with _ | ⟨w, ws⟩
  · rw [h] at hv; cases hv
  · rw [h] at hv
    rcases List.mem_cons.mp hv with h1 | h1
    · subst h1; exact foldl_vmax_ge_init ws v
    · exact foldl_vmax_ge_mem ws w v h1

theorem comp_bound {lo hi w r : ℚ} (hr : 0 < r) (h1 : lo ≤ w) (h2 : w ≤ hi)
    (hd : hi - lo ≤ 2 * r) :
    -1 ≤ (w - (lo + hi) / 2) / r ∧ (w - (lo + hi) / 2) / r ≤ 1 := by
  constructor
  · rw [le_div_iff₀ hr]; linarith
  · rw [div_le_one hr]; linarith

theorem foldl_vmin_const (vs : List Vec3) (a : Vec3) (h : ∀ v ∈ vs, v = a) :
    vs.foldl vmin a = a := by
  induction vs with
  | nil => rfl
  | cons v vs ih =>
    have hv : v = a := h v (List.mem_cons_self _ _)
    have ha : vmin a v = a := by
      subst hv; simp [vmin]
    simp only [List.foldl_cons, ha]
    exact ih (fun w hw => h w (List.mem_cons_of_mem _ hw))

theorem foldl_vmax_const (vs : List Vec3) (a : Vec3) (h : ∀ v ∈ vs, v = a) :
    vs.foldl vmax a = a := by
  induction vs with
  | nil => rfl
  | cons v vs ih =>
    have hv : v = a := h v (List.mem_cons_self _ _)
    have ha : vmax a v = a := by
      subst hv; simp [vmax]
    simp only [List.foldl_cons, ha]
    exact ih (fun w hw => h w (List.mem_cons_of_mem _ hw))

theorem meshMinMax_all_eq {m : Mesh} {w : Vec3}
    (hall : ∀ v ∈ allVerts m, ∀ u ∈ allVerts m, v = u) (hw : w ∈ allVerts m) :
    meshMin m = w ∧ meshMax m = w := by
  unfold meshMin meshMax
  rcases h : allVerts m with _ | ⟨v₀, vs⟩
  · rw [h] at hw; cases hw
  · rw [h] at hall hw
    have hhead : v₀ ∈ v₀ :: vs := List.mem_cons_self _ _
    have hconst : ∀ v ∈ vs, v = v₀ :=
      fun v hv => hall v (List.mem_cons_of_mem _ hv) v₀ hhead
    have h0 : v₀ = w := hall v₀ hhead w hw
    constructor
    · show vs.foldl vmin v₀ = w
      rw [foldl_vmin_const vs v₀ hconst]; exact h0
    · show vs.foldl vmax v₀ = w
      rw [foldl_vmax_const vs v₀ hconst]; exact h0

theorem maxRange_all_eq {m : Mesh}
    (hall : ∀ v ∈ allVerts m, ∀ u ∈ allVerts m, v = u) : maxRange m = 0 := by
  have hmm : meshMin m = meshMax m := by
    rcases h : allVerts m with _ | ⟨v₀, vs⟩
    · unfold meshMin meshMax; rw [h]
    · have hw : v₀ ∈ allVerts m := by rw [h]; exact List.mem_cons_self _ _
      obtain ⟨h1, h2⟩ := meshMinMax_all_eq hall hw
      rw [h1, h2]

  unfold maxRange meshDims
  rw [hmm]
  simp

/-! ### Except plumbing -/

theorem exOk_bind {α β : Type} (x : Except String α) (g : α → Except String β) :
    exOk (x >>= g) = true ↔ ∃ a, x = .ok a ∧ exOk (g a) = true := by
  cases x with
  | error e =>
    constructor
    · intro h; cases h
    · rintro ⟨a, ha, _⟩; cases ha
  | ok a =>
    constructor
    · intro h; exact ⟨a, rfl, h⟩
    · rintro ⟨b, hb, hg⟩; cases hb; exact hg

theorem exOk_iff_exists {α : Type} (x : Except String α) :
    exOk x = true ↔ ∃ a, x = .ok a := by
  cases x with
  | error e =>
    constructor
    · intro h; cases h
    · rintro ⟨a, ha⟩; cases ha
  | ok a => exact ⟨fun _ => ⟨a, rfl⟩, fun _ => rfl⟩

theorem exOk_pure {α : Type} (a : α) : exOk (pure a : Except String α) = true := rfl

theorem exOk_mapM {α β : Type} (g : α → Except String β) (l : List α) :
    exOk (l.mapM g) = true ↔ ∀ a ∈ l, exOk (g a) = true := by
  induction l with
  | nil =>
    constructor
    · intro _ a ha; cases ha
    · intro _; rfl
  | cons a l ih =>
    rw [List.mapM_cons]
    constructor
    · intro h
      rw [exOk_bind] at h
      obtain ⟨b, hb, h2⟩ := h
      rw [exOk_bind] at h2
      obtain ⟨bs, hbs, _⟩ := h2
      intro x hx
      rcases List.mem_cons.mp hx with h | h
      · subst h; rw [hb]; rfl
      · exact ih.mp (by rw [hbs]; rfl) x h
    · intro h
      rw [exOk_bind]
      obtain ⟨b, hb⟩ := (exOk_iff_exists _).mp (h a (List.mem_cons_self _ _))
      refine ⟨b, hb, ?_⟩
      rw [exOk_bind]
      obtain ⟨bs, hbs⟩ := (exOk_iff_exists _).mp
        (ih.mpr (fun x hx => h x (List.mem_cons_of_mem _ hx)))
      exact ⟨bs, hbs, rfl⟩

theorem mapM_map_except {α β γ : Type} (f : α → β) (g : β → Except String γ)
    (l : List α) : (l.map f).mapM g = l.mapM (fun a => g (f a)) := by
  induction l with
  | nil => rfl
  | cons a l ih => rw [List.map_cons, List.mapM_cons, List.mapM_cons, ih]

theorem find?_ext {α : Type} (p q : α → Bool) (l : List α) (h : ∀ a, p a = q a) :
    l.find? p = l.find? q := by
  induction l with
  | nil => rfl
  | cons a l ih =>
    rw [List.find?_cons, List.find?_cons, h a, ih]

/-! ### Index dereference characterization -/

theorem derefIdx_ok (verts : List Vec3) (i : Int) :
    exOk (derefIdx verts i) = true ↔ -(verts.length : Int) ≤ i ∧ i < verts.length := by
  unfold derefIdx
  split_ifs with h1 h2
  · constructor
    · intro _; omega
    · intro _; rfl
  · constructor
    · intro _; omega
    · intro _; rfl
  · constructor
    · intro h; cases h
    · intro h; omega

theorem derefTri_ok (verts : List Vec3) (f : Int × Int × Int) :
    exOk (derefTri verts f) = true ↔ numpyValid verts.length f := by
  unfold derefTri numpyValid
  rw [exOk_bind]
  constructor
  · rintro ⟨a, ha, h2⟩
    rw [exOk_bind] at h2
    obtain ⟨b, hb, h3⟩ := h2
    rw [exOk_bind] at h3
    obtain ⟨c, hc, _⟩ := h3
    refine ⟨?_, ?_, ?_⟩
    · exact (derefIdx_ok verts f.1).mp (by rw [ha]; rfl)
    · exact (derefIdx_ok verts f.2.1).mp (by rw [hb]; rfl)
    · exact (derefIdx_ok verts f.2.2).mp (by rw [hc]; rfl)
  · rintro ⟨h1, h2, h3⟩
    obtain ⟨a, ha⟩ := (exOk_iff_exists _).mp ((derefIdx_ok verts f.1).mpr h1)
    obtain ⟨b, hb⟩ := (exOk_iff_exists _).mp ((derefIdx_ok verts f.2.1).mpr h2)
    obtain ⟨c, hc⟩ := (exOk_iff_exists _).mp ((derefIdx_ok verts f.2.2).mpr h3)
    refine ⟨a, ha, ?_⟩
    rw [exOk_bind]
    refine ⟨b, hb, ?_⟩
    rw [exOk_bind]
    exact ⟨c, hc, rfl⟩

theorem materialize_ok (verts : List Vec3) (faces : List (Int × Int × Int)) :
    exOk (materialize verts faces) = true ↔ ∀ f ∈ faces, numpyValid verts.length f := by
  unfold materialize
  rw [exOk_bind]
  constructor
  · rintro ⟨tris, htris, _⟩
    intro f hf
    exact (derefTri_ok verts f).mp ((exOk_mapM _ _).mp (by rw [htris]; rfl) f hf)
  · intro h
    obtain ⟨tris, htris⟩ := (exOk_iff_exists _).mp
      ((exOk_mapM (derefTri verts) faces).mpr
        (fun f hf => (derefTri_ok verts f).mpr (h f hf)))
    exact ⟨tris, htris, rfl⟩

/-! ### Namespace uniformity of element search -/

theorem find_all_children_nil (t : XTag) (attrs : List (String × String))
    (name : String) (cands : List (Option String)) :
    find_all_elements ⟨t, attrs, []⟩ name cands = [] := by
  induction cands with
  | nil => rfl
  | cons ns rest ih =>
    cases ns with
    | none => simpa [find_all_elements, findAllByTag] using ih
    | some s =>
      by_cases hs : s.isEmpty <;>
        simpa [find_all_elements, findAllByTag, hs] using ih

theorem find_all_uniform {α : Type} (f : α → XElem) (l : List α) (ns₀ : Option String)
    (name : String) (t : XTag) (attrs : List (String × String))
    (rest : List (Option String))
    (hns : ns₀ = none ∨ ∃ s, ns₀ = some s ∧ s.isEmpty = false)
    (htag : ∀ a, (f a).tag = ⟨ns₀, name⟩) :
    find_all_elements ⟨t, attrs, l.map f⟩ name (ns₀ :: rest) = l.map f := by
  cases l with
  | nil => simpa using find_all_children_nil t attrs name (ns₀ :: rest)
  | cons a l =>
    have hfull : findAllByTag ⟨t, attrs, (a :: l).map f⟩ ⟨ns₀, name⟩ = (a :: l).map f :=
      List.filter_eq_self.mpr (by
        intro c hc
        obtain ⟨b, _, rfl⟩ := List.mem_map.mp hc
        simp [htag b])
    simp only [List.map_cons] at hfull
    rcases hns with h | ⟨s, h, hs⟩
    · subst h
      simp [find_all_elements, hfull]
    · subst h
      simp [find_all_elements, hs, hfull]

theorem parse3mfMeshData_map (ns₀ : Option String)
    (vs ts : List (String × String × String)) :
    parse3mfMeshData (vs.map (mkVertex ns₀)) (ts.map (mkTriangle ns₀)) =
      parse3mfMeshData (vs.map (mkVertex none)) (ts.map (mkTriangle none)) := by
  have h1 : (fun a => parseVertexElem (mkVertex ns₀ a)) =
      (fun a => parseVertexElem (mkVertex none a)) := funext fun v => rfl
  have h2 : (fun a => parseTriangleElem (mkTriangle ns₀ a)) =
      (fun a => parseTriangleElem (mkTriangle none a)) := funext fun u => rfl
  unfold parse3mfMeshData
  simp only [mapM_map_except, h1, h2]

theorem parse_mkModelDoc_none (vs ts : List (String × String × String)) :
    parse3mfModel (mkModelDoc none vs ts) =
      parse3mfMeshData (vs.map (mkVertex none)) (ts.map (mkTriangle none)) := by
  have hv := find_all_uniform (mkVertex none) vs none "vertex" ⟨none, "vertices"⟩ []
    [some msNS, some oxNS, none] (Or.inl rfl) (fun a => rfl)
  have ht := find_all_uniform (mkTriangle none) ts none "triangle" ⟨none, "triangles"⟩ []
    [some msNS, some oxNS, none] (Or.inl rfl) (fun a => rfl)
  calc parse3mfModel (mkModelDoc none vs ts)
      = parse3mfMeshData
          (find_all_elements ⟨⟨none, "vertices"⟩, [], vs.map (mkVertex none)⟩ "vertex"
            [none, some msNS, some oxNS, none])
          (find_all_elements ⟨⟨none, "triangles"⟩, [], ts.map (mkTriangle none)⟩ "triangle"
            [none, some msNS, some oxNS, none]) := rfl
    _ = parse3mfMeshData (vs.map (mkVertex none)) (ts.map (mkTriangle none)) := by
          rw [hv, ht]

theorem parse_mkModelDoc_ms (vs ts : List (String × String × String)) :
    parse3mfModel (mkModelDoc (some msNS) vs ts) =
      parse3mfMeshData (vs.map (mkVertex (some msNS))) (ts.map (mkTriangle (some msNS))) := by
  have hv := find_all_uniform (mkVertex (some msNS)) vs (some msNS) "vertex"
    ⟨some msNS, "vertices"⟩ [] [some msNS, some oxNS, none]
    (Or.inr ⟨msNS, rfl, rfl⟩) (fun a => rfl)
  have ht := find_all_uniform (mkTriangle (some msNS)) ts (some msNS) "triangle"
    ⟨some msNS, "triangles"⟩ [] [some msNS, some oxNS, none]
    (Or.inr ⟨msNS, rfl, rfl⟩) (fun a => rfl)
  calc parse3mfModel (mkModelDoc (some msNS) vs ts)
      = parse3mfMeshData
          (find_all_elements ⟨⟨some msNS, "vertices"⟩, [], vs.map (mkVertex (some msNS))⟩
            "vertex" [some msNS, some msNS, some oxNS, none])
          (find_all_elements ⟨⟨some msNS, "triangles"⟩, [], ts.map (mkTriangle (some msNS))⟩
            "triangle" [some msNS, some msNS, some oxNS, none]) := rfl
    _ = parse3mfMeshData (vs.map (mkVertex (some msNS))) (ts.map (mkTriangle (some msNS))) := by
          rw [hv, ht]

theorem parse_mkModelDoc_ox (vs ts : List (String × String × String)) :
    parse3mfModel (mkModelDoc (some oxNS) vs ts) =
      parse3mfMeshData (vs.map (mkVertex (some oxNS))) (ts.map (mkTriangle (some oxNS))) := by
  have hv := find_all_uniform (mkVertex (some oxNS)) vs (some oxNS) "vertex"
    ⟨some oxNS, "vertices"⟩ [] [some msNS, some oxNS, none]
    (Or.inr ⟨oxNS, rfl, rfl⟩) (fun a => rfl)
  have ht := find_all_uniform (mkTriangle (some oxNS)) ts (some oxNS) "triangle"
    ⟨some oxNS, "triangles"⟩ [] [some msNS, some oxNS, none]
    (Or.inr ⟨oxNS, rfl, rfl⟩) (fun a => rfl)
  calc parse3mfModel (mkModelDoc (some oxNS) vs ts)
      = parse3mfMeshData
          (find_all_elements ⟨⟨some oxNS, "vertices"⟩, [], vs.map (mkVertex (some oxNS))⟩
            "vertex" [some oxNS, some msNS, some oxNS, none])
          (find_all_elements ⟨⟨some oxNS, "triangles"⟩, [], ts.map (mkTriangle (some oxNS))⟩
            "triangle" [some oxNS, some msNS, some oxNS, none]) := rfl
    _ = parse3mfMeshData (vs.map (mkVertex (some oxNS))) (ts.map (mkTriangle (some oxNS))) := by
          rw [hv, ht]

/-! ### Object selection: the code-side and spec-side predicates agree -/

theorem selectObject_code_eq_spec (objects : List XElem) (nss : List (Option String)) :
    selectObjectNode objects nss = selectObjectSpec objects nss := by
  unfold selectObjectNode selectObjectSpec
  rw [find?_ext _ _ objects (fun o => ?_)]
  cases h : getAttr o "type" with
  | none => simp [getAttrD, h]
  | some s =>
    by_cases hs : s = "model" <;> simp [getAttrD, h, hs]

/-! ### Batch collection lemmas -/

theorem collectResults_length (l : List (Job × Except String JobResult)) (st : Bool) :
    (collectResults l st).1.length = l.length := by
  induction l with
  | nil => rfl
  | cons p rest ih => simp [collectResults, ih]

theorem collectResults_count_le (l : List (Job × Except String JobResult)) (st : Bool) :
    (collectResults l st).2.1 ≤ l.length := by
  induction l with
  | nil => exact Nat.le_refl 0
  | cons p rest ih =>
    show (if (futureResult p.1 p.2).success then 1 else 0) + (collectResults rest st).2.1
      ≤ rest.length + 1
    by_cases h : (futureResult p.1 p.2).success <;> simp [h] <;> omega

theorem collectResults_results_indep (l : List (Job × Except String JobResult)) :
    (collectResults l true).1 = (collectResults l false).1 := by
  induction l with
  | nil => rfl
  | cons p rest ih => simp [collectResults, ih]

theorem collectResults_count_indep (l : List (Job × Except String JobResult)) :
    (collectResults l true).2.1 = (collectResults l false).2.1 := by
  induction l with
  | nil => rfl
  | cons p rest ih => simp [collectResults, ih]

theorem collectResults_stream_off (l : List (Job × Except String JobResult)) :
    (collectResults l false).2.2 = [] := by
  induction l with
  | nil => rfl
  | cons p rest ih => simp [collectResults, ih]

theorem collectResults_stream_on (l : List (Job × Except String JobResult)) :
    (collectResults l true).2.2 = (collectResults l true).1.map StreamRec.result := by
  induction l with
  | nil => rfl
  | cons p rest ih => simp [collectResults, ih]

theorem dims_le_two_maxRange (m : Mesh) :
    (meshDims m).x ≤ 2 * maxRange m ∧ (meshDims m).y ≤ 2 * maxRange m
      ∧ (meshDims m).z ≤ 2 * maxRange m := by
  unfold maxRange
  refine ⟨?_, ?_, ?_⟩
  · have h := le_max_left (meshDims m).x (max (meshDims m).y (meshDims m).z)
    linarith
  · have h := le_trans (le_max_left (meshDims m).y (meshDims m).z)
      (le_max_right (meshDims m).x (max (meshDims m).y (meshDims m).z))
    linarith
  · have h := le_trans (le_max_right (meshDims m).y (meshDims m).z)
      (le_max_right (meshDims m).x (max (meshDims m).y (meshDims m).z))
    linarith

/-! ### Claim theorems -/

/-- C1: for every job (any input path, output path and size) and every
behavior of the collaborators, the job runner returns a `JobResult` (it is
a total function into `JobResult`, never propagating a collaborator
failure), the result echoes the job's paths, the result carries an error
string exactly when it is unsuccessful, and a failing loader's message is
the result's error string. -/
theorem generate_thumbnail_boundary (env : Env) (fp op : String) (sz : Nat) :
    ((generate_thumbnail env fp op sz).success = false
      ↔ (generate_thumbnail env fp op sz).error.isSome = true)
    ∧ (generate_thumbnail env fp op sz).file_path = fp
    ∧ (generate_thumbnail env fp op sz).output_path = op
    ∧ (∀ e, selectLoad env fp = .error e →
        (generate_thumbnail env fp op sz).error = some e) := by
  unfold generate_thumbnail
  cases h : selectLoad env fp with
  | error e => simp
  | ok m =>
    cases hm : m.vectors.isEmpty with
    | true =>
      have hm2 : m.vectors = [] := by simpa using hm
      simp [hm2]
    | false =>
      have hm2 : ¬ m.vectors = [] := by simpa using hm
      cases hr : env.render op sz (normalize m) with
      | error e2 => simp [hm2, hr]
      | ok u => simp [hm2, hr]

/-- Witness for C1 at a concrete failing loader: the collaborator's
message becomes the result's error string. -/
theorem generate_thumbnail_boundary_witness :
    (generate_thumbnail envBadZip "part.3mf" "out.png" 256).error
      = some "Invalid 3MF file (not a valid ZIP)" :=
  (generate_thumbnail_boundary envBadZip "part.3mf" "out.png" 256).2.2.2
    "Invalid 3MF file (not a valid ZIP)" rfl

/-- C2: for every job list and completion order (a permutation of the
submitted jobs, each with its worker outcome), the summary built by
`process_batch` satisfies `succeeded + failed = total`, `total` is the
number of submitted jobs, and the result list holds exactly one entry per
job; the worker count and streaming flag do not disturb this. -/
theorem process_batch_summary_invariant (jobs : List Job)
    (completed : List (Job × Except String JobResult)) (w : Nat) (stream : Bool)
    (hperm : List.Perm (completed.map Prod.fst) jobs) :
    (process_batch jobs completed w stream).1.succeeded
        + (process_batch jobs completed w stream).1.failed
      = (process_batch jobs completed w stream).1.total
    ∧ (process_batch jobs completed w stream).1.total = jobs.length
    ∧ (process_batch jobs completed w stream).1.results.length = jobs.length := by
  have hlen : completed.length = jobs.length := by
    have h := hperm.length_eq
    simpa using h
  have hle : (collectResults completed stream).2.1 ≤ jobs.length :=
    hlen ▸ collectResults_count_le completed stream
  unfold process_batch
  refine ⟨?_, rfl, ?_⟩
  · show (collectResults completed stream).2.1
      + (jobs.length - (collectResults completed stream).2.1) = jobs.length
    omega
  · show (collectResults completed stream).1.length = jobs.length
    rw [collectResults_length, hlen]

/-- Witness for C2: two jobs, completing in the opposite order, the first
completion being a worker-pool fault. -/
theorem process_batch_summary_invariant_witness :
    (process_batch demoJobs demoCompleted 4 false).1.succeeded
        + (process_batch demoJobs demoCompleted 4 false).1.failed
      = (process_batch demoJobs demoCompleted 4 false).1.total
    ∧ (process_batch demoJobs demoCompleted 4 false).1.total = demoJobs.length
    ∧ (process_batch demoJobs demoCompleted 4 false).1.results.length = demoJobs.length :=
  process_batch_summary_invariant demoJobs demoCompleted 4 false (by decide)

/-- C3: the loader's object tie-break agrees everywhere with the spec's
policy (first object whose `type` is absent or `"model"` and which
directly contains a `mesh` child, else first object with a `mesh` child);
with a `type="support"` mesh-bearing object listed before a
`type="model"` one the second is chosen, with only a `type="support"`
mesh-bearing object that one is chosen, and with no mesh-bearing object
the loader fails with the no-mesh-object error. -/
theorem object_selection_policy :
    (∀ (objects : List XElem) (nss : List (Option String)),
      selectObjectNode objects nss = selectObjectSpec objects nss)
    ∧ parse3mfModel tieDocA = .ok tieMeshModel
    ∧ parse3mfModel tieDocB = .ok tieMeshSupport
    ∧ parse3mfModel noMeshObjDoc = .error "No object with mesh found in 3MF file" :=
  ⟨selectObject_code_eq_spec, rfl, rfl, rfl⟩

/-- C4 counterexample: the claim says any triangle index outside
`0..n-1` makes the loader fail with no mesh produced, but the code never
bounds-checks; numpy resolves the negative index `-1` (outside `0..1` for
the two-vertex document) to the last vertex and a mesh IS produced. -/
theorem triangle_negative_index_counterexample :
    parse3mfModel negIdxDoc = .ok negIdxMesh := rfl

/-- C4 as amended: materialization succeeds exactly when every index of
every triangle lies in numpy's accepted range `-n ≤ i < n` (negative
indices silently wrap), an index `≥ n` such as 999 against 8 vertices
fails with an error naming the index and the size, and an empty triangle
list fails with the no-triangles error. -/
theorem triangle_index_bounds_amended :
    (∀ (verts : List Vec3) (faces : List (Int × Int × Int)),
      exOk (materialize verts faces) = true ↔ ∀ f ∈ faces, numpyValid verts.length f)
    ∧ parse3mfModel oobDoc = .error "index 999 is out of bounds for axis 0 with size 8"
    ∧ parse3mfModel noTriDoc = .error "No triangles found in 3MF mesh" :=
  ⟨materialize_ok, rfl, rfl⟩

/-- Witness for C4 (amended): a concrete face list whose indices all lie
in numpy's accepted range materializes successfully. -/
theorem triangle_index_bounds_amended_witness :
    exOk (materialize [⟨0, 0, 0⟩, ⟨1, 1, 1⟩] [((0 : Int), (1 : Int), (-1 : Int))]) = true :=
  (triangle_index_bounds_amended.1 [⟨0, 0, 0⟩, ⟨1, 1, 1⟩] [(0, 1, -1)]).mpr (by decide)

/-- C5: normalization centers at the bounding-box midpoint and, when half
the largest extent is positive, divides by it, leaving every coordinate of
the result (in particular the dominant axis) within `[-1, 1]`; when the
extent is zero on all axes no division happens and only centering is
applied; a mesh whose vertices are all one point lands exactly on the
origin. -/
theorem normalize_bounds (m : Mesh) :
    (0 < maxRange m →
      ∀ v ∈ allVerts (normalize m),
        (-1 ≤ v.x ∧ v.x ≤ 1) ∧ (-1 ≤ v.y ∧ v.y ≤ 1) ∧ (-1 ≤ v.z ∧ v.z ≤ 1))
    ∧ (¬ 0 < maxRange m →
        normalize m = ⟨m.vectors.map (triMap (fun v => vsub v (centerOf m)))⟩)
    ∧ ((∀ v ∈ allVerts m, ∀ u ∈ allVerts m, v = u) →
        ∀ v ∈ allVerts (normalize m), v = ⟨0, 0, 0⟩) := by
  obtain ⟨hdx, hdy, hdz⟩ := dims_le_two_maxRange m
  refine ⟨?_, ?_, ?_⟩
  · intro hr v hv
    simp only [normalize] at hv
    rw [if_pos hr, allVerts_map] at hv
    obtain ⟨w, hw, rfl⟩ := List.mem_map.mp hv
    have hw' : w ∈ allVerts m := hw
    obtain ⟨hx1, hy1, hz1⟩ := meshMin_le hw'
    obtain ⟨hx2, hy2, hz2⟩ := le_meshMax hw'
    simp only [meshDims] at hdx hdy hdz
    refine ⟨?_, ?_, ?_⟩
    · simpa [vsubdiv, centerOf] using comp_bound hr hx1 hx2 hdx
    · simpa [vsubdiv, centerOf] using comp_bound hr hy1 hy2 hdy
    · simpa [vsubdiv, centerOf] using comp_bound hr hz1 hz2 hdz
  · intro hnr
    simp only [normalize]
    rw [if_neg hnr]
  · intro hall v hv
    have hr0 : maxRange m = 0 := maxRange_all_eq hall
    have hnr : ¬ 0 < maxRange m := by rw [hr0]; exact lt_irrefl 0
    simp only [normalize] at hv
    rw [if_neg hnr, allVerts_map] at hv
    obtain ⟨w, hw, rfl⟩ := List.mem_map.mp hv
    have hw' : w ∈ allVerts m := hw
    obtain ⟨hmin, hmax⟩ := meshMinMax_all_eq hall hw'
    simp only [vsub, centerOf, hmin, hmax, Vec3.mk.injEq]
    refine ⟨?_, ?_, ?_⟩ <;> ring

/-- Witness for C5 at a one-triangle mesh of extent 2. -/
theorem normalize_bounds_witness :
    0 < maxRange demoMesh
    ∧ ∀ v ∈ allVerts (normalize demoMesh),
        (-1 ≤ v.x ∧ v.x ≤ 1) ∧ (-1 ≤ v.y ∧ v.y ≤ 1) ∧ (-1 ≤ v.z ∧ v.z ≤ 1) := by
  have h0 : 0 < maxRange demoMesh := by
    simp [maxRange, meshDims, meshMin, meshMax, allVerts, demoMesh, vmin, vmax]
  exact ⟨h0, (normalize_bounds demoMesh).1 h0⟩

/-- C6: the loader's namespace fallback makes documents with identical
raw vertex/triangle data parse identically whether they declare the
Microsoft core namespace, the OpenXML core namespace, or no namespace at
all. -/
theorem namespace_tolerance (vs ts : List (String × String × String)) :
    parse3mfModel (mkModelDoc (some msNS) vs ts) = parse3mfModel (mkModelDoc none vs ts)
    ∧ parse3mfModel (mkModelDoc (some oxNS) vs ts)
        = parse3mfModel (mkModelDoc none vs ts) := by
  constructor
  · rw [parse_mkModelDoc_ms, parse_mkModelDoc_none, parse3mfMeshData_map]
  · rw [parse_mkModelDoc_ox, parse_mkModelDoc_none, parse3mfMeshData_map]

/-- C7: a `.3mf` input whose bytes are not a valid zip archive yields a
failed `JobResult` carrying exactly the container-level
`Invalid 3MF file (not a valid ZIP)` message; nothing escapes the runner. -/
theorem bad_zip_jobresult (env : Env) (fp op : String) (sz : Nat)
    (hext : strLower (pathSuffix fp) = ".3mf") (hzip : env.zipData fp = .notZip) :
    (generate_thumbnail env fp op sz).success = false
    ∧ (generate_thumbnail env fp op sz).error
        = some "Invalid 3MF file (not a valid ZIP)" := by
  have hload : selectLoad env fp = .error "Invalid 3MF file (not a valid ZIP)" := by
    unfold selectLoad load_3mf_mesh
    rw [hext, hzip]
    simp
  unfold generate_thumbnail
  rw [hload]
  exact ⟨rfl, rfl⟩

/-- Witness for C7 at the bad-zip environment. -/
theorem bad_zip_jobresult_witness :
    (generate_thumbnail envBadZip "part.3mf" "o.png" 64).success = false
    ∧ (generate_thumbnail envBadZip "part.3mf" "o.png" 64).error
        = some "Invalid 3MF file (not a valid ZIP)" :=
  bad_zip_jobresult envBadZip "part.3mf" "o.png" 64 rfl rfl

/-- C8: extension dispatch — `.stl` (case-insensitively) goes to the STL
loader, `.3mf` to the 3MF loader, and any other extension yields a failed
result whose error names the unsupported file type. -/
theorem extension_dispatch (env : Env) (fp op : String) (sz : Nat) :
    (strLower (pathSuffix fp) = ".stl" → selectLoad env fp = env.stlParse fp)
    ∧ (strLower (pathSuffix fp) = ".3mf" → selectLoad env fp = load_3mf_mesh env fp)
    ∧ (strLower (pathSuffix fp) ≠ ".stl" → strLower (pathSuffix fp) ≠ ".3mf" →
        (generate_thumbnail env fp op sz).success = false
        ∧ (generate_thumbnail env fp op sz).error
            = some ("Unsupported file type: " ++ strLower (pathSuffix fp)
                ++ ". Only .stl and .3mf are supported.")) := by
  refine ⟨?_, ?_, ?_⟩
  · intro h
    unfold selectLoad
    rw [h]
    simp
  · intro h
    unfold selectLoad
    rw [h]
    simp
  · intro h1 h2
    have hload : selectLoad env fp
        = .error ("Unsupported file type: " ++ strLower (pathSuffix fp)
            ++ ". Only .stl and .3mf are supported.") := by
      unfold selectLoad
      rw [if_neg h1, if_neg h2]
    unfold generate_thumbnail
    rw [hload]
    exact ⟨rfl, rfl⟩

/-- Witness for C8 at a `.txt` input. -/
theorem extension_dispatch_witness :
    (generate_thumbnail envStlOk "f.txt" "o.png" 256).success = false
    ∧ (generate_thumbnail envStlOk "f.txt" "o.png" 256).error
        = some ("Unsupported file type: " ++ strLower (pathSuffix "f.txt")
            ++ ". Only .stl and .3mf are supported.") :=
  (extension_dispatch envStlOk "f.txt" "o.png" 256).2.2 (by decide) (by decide)

/-- C9 counterexample: the claim says exactly one of metadata or error is
populated, but when the render/write stage fails after a successful load
(as for an output path whose directory cannot be created), the runner
returns a result with `success = false` carrying BOTH the metadata filled
in before rendering AND the error string. -/
theorem jobresult_double_population_counterexample :
    (generate_thumbnail envRenderFail "model.stl" "out.png" 256).success = false
    ∧ (generate_thumbnail envRenderFail "model.stl" "out.png" 256).error.isSome = true
    ∧ (generate_thumbnail envRenderFail "model.stl" "out.png" 256).metadata.isSome = true :=
  ⟨rfl, rfl, rfl⟩

/-- C9 as amended: a failed result always carries an error string; a
successful result carries metadata and no error; and whenever the load
stage produces a (non-empty) mesh, the reported metadata is exactly the
one computed from that mesh, whose triangle count equals the number of
parsed triangles — but metadata may accompany the error on a failure that
happens after loading. -/
theorem jobresult_field_discipline_amended (env : Env) (fp op : String) (sz : Nat) :
    ((generate_thumbnail env fp op sz).success = false →
      (generate_thumbnail env fp op sz).error.isSome = true)
    ∧ ((generate_thumbnail env fp op sz).success = true →
      (generate_thumbnail env fp op sz).error = none
      ∧ (generate_thumbnail env fp op sz).metadata.isSome = true)
    ∧ (∀ m, selectLoad env fp = .ok m → m.vectors.isEmpty = false →
      (generate_thumbnail env fp op sz).metadata = some (mkMetadata m)
      ∧ (mkMetadata m).triangles = m.vectors.length) := by
  unfold generate_thumbnail
  cases h : selectLoad env fp with
  | error e => simp
  | ok m =>
    cases hm : m.vectors.isEmpty with
    | true =>
      have hm2 : m.vectors = [] := by simpa using hm
      simp [hm2, List.isEmpty_eq_true]
    | false =>
      have hm2 : ¬ m.vectors = [] := by simpa using hm
      cases hr : env.render op sz (normalize m) with
      | error e2 => simp [hm2, hr, mkMetadata]
      | ok u => simp [hm2, hr, mkMetadata]

/-- Witness for C9 (amended) at a successful one-triangle STL job. -/
theorem jobresult_field_discipline_amended_witness :
    (generate_thumbnail envStlOk "model.stl" "out/p.png" 128).metadata
      = some (mkMetadata demoMesh)
    ∧ (mkMetadata demoMesh).triangles = demoMesh.vectors.length :=
  (jobresult_field_discipline_amended envStlOk "model.stl" "out/p.png" 128).2.2
    demoMesh rfl rfl

/-- C10: the summary value is the same whether or not streaming is
requested; buffered mode emits nothing, and streaming mode emits exactly
one record per collected result (in completion order) followed by the
summary record. -/
theorem process_batch_stream_independent (jobs : List Job)
    (completed : List (Job × Except String JobResult)) (w : Nat) :
    (process_batch jobs completed w true).1 = (process_batch jobs completed w false).1
    ∧ (process_batch jobs completed w false).2 = []
    ∧ (process_batch jobs completed w true).2
        = (process_batch jobs completed w true).1.results.map StreamRec.result
          ++ [StreamRec.summary (process_batch jobs completed w true).1] := by
  unfold process_batch
  refine ⟨?_, ?_, ?_⟩
  · simp only [collectResults_results_indep, collectResults_count_indep]
  · simp [collectResults_stream_off]
  · simp [collectResults_stream_on]

end PV3D
